import Mathlib

/-!
# Verification of `appMVCv2.py` (Example of MVC pattern on pure Python)

Shallow embedding of the application's data model and operations.

The Python `shelve` stores (one for documents, one for sessions) are
modelled as association lists from string keys to values; every mutating
operation returns the updated store (the `sync()` flush is disk I/O and has
no observable effect on the store's contents).  The module-level mutation of
the shared session object by the controller is modelled by state passing:
each handler returns the response together with the updated document store
and the updated session.  `uuid.uuid4()` is nondeterministic; the freshly
generated identifier is passed to `SessionManager.get_or_create` as an
explicit argument.
-/

/-- A `shelve` store: string keys mapped to values.  Python dict assignment
overwrites an existing key and otherwise adds the key. -/
abbrev Store (α : Type) := List (String × α)

def storeGet {α : Type} : Store α → String → Option α
  | [], _ => none
  | (k, v) :: rest, t => if k = t then some v else storeGet rest t

def storeSet {α : Type} : Store α → String → α → Store α
  | [], t, c => [(t, c)]
  | (k, v) :: rest, t, c =>
    if k = t then (k, c) :: rest else (k, v) :: storeSet rest t c

/-- Python `key in db` membership test. -/
def storeContains {α : Type} (db : Store α) (t : String) : Bool :=
  (storeGet db t).isSome

/-- `sub` occurs as a contiguous substring of `s`. -/
def strContains (s sub : String) : Bool :=
  decide (sub.data <:+: s.data)

/-- `http_status(code)`: the status line string for an int code. -/
def http_status (code : Int) : String :=
  if code = 200 then "200 OK" else "404 Not Found"

/-- `take_one_or_None(dict_, key)` on the query-parameter dict produced by
`parse_qs` (values are lists of strings): the first value of the list held
under `key`, or `None` when the key is absent.  (`parse_qs` never produces
an empty value list, so the Python corner case where the empty list itself
is returned is unreachable and is folded into `none`.) -/
def take_one_or_None (dict_ : Store (List String)) (key : String) : Option String :=
  match storeGet dict_ key with
  | none => none
  | some val => val.head?

/-- Python truthiness test `not x` for an optional string: `None` and the
empty string are falsy. -/
def pyFalsy : Option String → Bool
  | none => true
  | some s => s = ""

/-- `TextModel(title, content)`. -/
structure TextModel where
  title : String
  content : String
deriving DecidableEq, Repr

/-- `TextManager.get_by_title`: `content = self._db.get(title)`, then
`TextModel(title, content) if content else None`.  The result is `none`
both when the key is absent and when the stored content is the empty
string (falsy).  The title argument is the possibly-missing query
parameter; looking up a missing (`None`) title finds nothing. -/
def TextManager.get_by_title (db : Store String) (title : Option String) :
    Option TextModel :=
  match title with
  | none => none
  | some t =>
    match storeGet db t with
    | none => none
    | some content => if content = "" then none else some ⟨t, content⟩

/-- `TextManager.get_all`: one `TextModel` per `(title, content)` item of
the store, in the store's iteration order. -/
def TextManager.get_all (db : Store String) : List TextModel :=
  db.map fun p => ⟨p.1, p.2⟩

/-- `TextManager.create`: `False` (store untouched) when the title is
already a key; otherwise store the content under the title and return
`True`. -/
def TextManager.create (db : Store String) (title content : String) :
    Bool × Store String :=
  if storeContains db title then (false, db)
  else (true, storeSet db title content)

/-- `TextManager.delete`: `False` when absent; otherwise remove the key. -/
def TextManager.delete (db : Store String) (title : String) :
    Bool × Store String :=
  if storeContains db title then (true, db.filter fun p => !(p.1 = title))
  else (false, db)

/-- `SessionModel`: a session identifier and a viewed-pages counter. -/
structure SessionModel where
  session_id : String
  amount_of_viewed_pages : Nat
deriving DecidableEq, Repr

/-- `SessionModel()`: fresh session with counter `0`; `fresh` stands for
the generated `str(uuid.uuid4())`. -/
def SessionModel.new (fresh : String) : SessionModel :=
  { session_id := fresh, amount_of_viewed_pages := 0 }

/-- `SessionManager.get_or_create(session_id)`: look the id up in the
session store (a `None` id finds nothing); a stored `SessionModel` object
is always truthy, so `if not session` is exactly the not-found case, in
which a fresh session (id `fresh`, counter 0) is created, persisted and
returned; otherwise the stored session is returned and the store is left
unchanged. -/
def SessionManager.get_or_create (sdb : Store SessionModel)
    (session_id : Option String) (fresh : String) :
    SessionModel × Store SessionModel :=
  let stored := match session_id with
    | none => none
    | some sid => storeGet sdb sid
  match stored with
  | some session => (session, sdb)
  | none =>
    let session := SessionModel.new fresh
    (session, storeSet sdb session.session_id session)

/-- `SessionManager.update(session)`: overwrite the stored record for
`session.session_id` with the given session. -/
def SessionManager.update (sdb : Store SessionModel)
    (session : SessionModel) : Store SessionModel :=
  storeSet sdb session.session_id session

/-- The render context built by `TextController.index`; the view later
adds the keys `titles` and `content`, so they are optional and start out
absent. -/
structure IndexContext where
  all : List TextModel
  current : Option TextModel
  error : String
  titles : Option String
  content : Option String
deriving DecidableEq, Repr

/-- The render context built by `TextController.add`. -/
structure AddContext where
  title : Option String
  content : Option String
  error : Option String
deriving DecidableEq, Repr

/-- The `{current}` substitution block of `TextIndexView.render`. -/
def TextIndexView.contentBlock (current : TextModel) : String :=
  "\n            <h1>" ++ current.title ++ "</h1>\n            " ++
    current.content ++ "\n            "

/-- The `{error}` wrapping block of `TextIndexView.render`. -/
def TextIndexView.errorBlock (error : String) : String :=
  "\n            <h1 style=\"color:red;\">" ++ error ++ "</h1>\n            "

/-- The page template of `TextIndexView.render` up to the `{error}`
slot. -/
def TextIndexView.templateA : String :=
  "\n        <form method=\"GET\">\n            <input type=text name=title placeholder=\"Text title\" />\n            <input type=submit value=read />\n        </form>\n        <form method=\"GET\" action=\"/text/add\">\n            <input type=text name=title placeholder=\"Text title\" /> <br>\n            <textarea name=content placeholder=\"Text content!\" ></textarea> <br>\n            <input type=submit value=write/rewrite />\n        </form>\n        <div>"

/-- The page template between the `{error}` and `{content}` slots. -/
def TextIndexView.templateB : String := "</div>\n        <div>"

/-- The page template between the `{content}` and `{titles}` slots. -/
def TextIndexView.templateC : String := "</div>\n        <ul>"

/-- The page template after the `{titles}` slot. -/
def TextIndexView.templateD : String := "</ul>\n        "

/-- `TextIndexView.render(context)`: returns the HTML string produced by
`t.format(**context)` together with the context dict as the method leaves
it -- the method mutates its argument, setting `context[\x7btitles\x7d]`
and `context[\x7bcontent\x7d]` and rewrapping a non-empty
`context[\x7berror\x7d]`. -/
def TextIndexView.render (context : IndexContext) : String × IndexContext :=
  let titles := String.intercalate "\n"
    (context.all.map fun text => "<li>" ++ text.title ++ "</li>")
  let content := match context.current with
    | some current => TextIndexView.contentBlock current
    | none => "What do you want read?"
  let error := if context.error = "" then context.error
    else TextIndexView.errorBlock context.error
  let body :=
    TextIndexView.templateA ++ error ++ TextIndexView.templateB ++ content ++
      TextIndexView.templateC ++ titles ++ TextIndexView.templateD
  (body,
   { context with titles := some titles, content := some content, error := error })

/-- `RedirectView.render(context)`: a constant redirect stub that ignores
its context entirely. -/
def RedirectView.render {α : Type} (_context : α) : String :=
  "<meta http-equiv=\"refresh\" content=\"0; url=/text\" />"

/-- The request data handed to a handler: the parsed query parameters plus
the session object injected under the reserved `SESSION` key. -/
structure Request where
  params : Store (List String)
  SESSION : SessionModel

/-- `TextController.index(request_get_data)` of the controller instance
wired with `TextIndexView`: gate the document lookup on the session
counter, list all documents, set the rate-limit error when over the gate,
increment the shared session's counter when a document was found, and
render.  Returns the `(200, body)` response, the (unchanged) document
store and the possibly-incremented session. -/
def TextController.index (db : Store String) (request_get_data : Request) :
    (Int × String) × Store String × SessionModel :=
  let title := take_one_or_None request_get_data.params "title"
  let current_text :=
    if request_get_data.SESSION.amount_of_viewed_pages ≤ 3 then
      TextManager.get_by_title db title
    else none
  let all_texts := TextManager.get_all db
  let context : IndexContext :=
    { all := all_texts
      current := current_text
      error :=
        if request_get_data.SESSION.amount_of_viewed_pages > 3 then
          "Too many articles reviewed."
        else ""
      titles := none
      content := none }
  let session :=
    if current_text.isSome then
      { request_get_data.SESSION with
          amount_of_viewed_pages :=
            request_get_data.SESSION.amount_of_viewed_pages + 1 }
    else request_get_data.SESSION
  ((200, (TextIndexView.render context).1), db, session)

/-- The validation-and-create part of `TextController.add`: the error
placed in the render context and the resulting document store.  When
title or content is missing/empty the store is untouched and no create is
attempted; otherwise `TextManager.create` runs and a failed create yields
the duplicate-title error. -/
def TextController.addOutcome (db : Store String) (request_get_data : Request) :
    Option String × Store String :=
  let title := take_one_or_None request_get_data.params "title"
  let content := take_one_or_None request_get_data.params "content"
  if pyFalsy title || pyFalsy content then
    (some "Need fill the form fields.", db)
  else
    -- here title = some t with t nonempty, likewise content
    let r := TextManager.create db (title.getD "") (content.getD "")
    (if r.1 then none else some "Title already exist.", r.2)

/-- `TextController.add(request_get_data)` of the controller instance
wired with `RedirectView` as its add view: validate, maybe create, build
the `\x7btitle, content, error\x7d` context and render it through the
redirect stub.  Returns the `(200, body)` response, the updated document
store and the (untouched) session. -/
def TextController.add (db : Store String) (request_get_data : Request) :
    (Int × String) × Store String × SessionModel :=
  let title := take_one_or_None request_get_data.params "title"
  let content := take_one_or_None request_get_data.params "content"
  let outcome := TextController.addOutcome db request_get_data
  let context : AddContext :=
    { title := title, content := content, error := outcome.1 }
  ((200, RedirectView.render context), outcome.2, request_get_data.SESSION)

/-- A route handler, in state-passing form: document store and request in,
`(status, body)` plus updated document store and session out. -/
abbrev Handler := Store String → Request → (Int × String) × Store String × SessionModel

/-- `Router`: the `_paths` dict from exact path to handler. -/
abbrev Router := Store Handler

/-- `Router.register(path, callback)`: dict assignment, so the last
registration for a path wins. -/
def Router.register (r : Router) (path : String) (callback : Handler) : Router :=
  storeSet r path callback

/-- `Router.default_response`: the catch-all response. -/
def Router.default_response : Int × String := (404, "Nooo 404!")

/-- `Router.route(request_path, request_get_data)`: exact-match lookup in
`_paths`; the matched handler is invoked, otherwise the default response
is returned (and no state changes). -/
def Router.route (r : Router) (request_path : String) (db : Store String)
    (request_get_data : Request) : (Int × String) × Store String × SessionModel :=
  match storeGet r request_path with
  | some callback => callback db request_get_data
  | none => (Router.default_response, db, request_get_data.SESSION)

/-- The module-level router of the application with its three registered
paths. -/
def router : Router :=
  Router.register
    (Router.register
      (Router.register [] "/"
        (fun db req => ((200, "Index HI!"), db, req.SESSION)))
      "/text" TextController.index)
    "/text/add" TextController.add

/-! ## Store lemmas -/

theorem storeGet_set_self {α : Type} (db : Store α) (k : String) (v : α) :
    storeGet (storeSet db k v) k = some v := by
  induction db with
  | nil => simp [storeSet, storeGet]
  | cons p rest ih =>
    obtain ⟨pk, pv⟩ := p
    by_cases h : pk = k <;> simp [storeSet, storeGet, h, ih]

theorem storeGet_set_ne {α : Type} (db : Store α) (k q : String) (v : α)
    (h : q ≠ k) : storeGet (storeSet db k v) q = storeGet db q := by
  induction db with
  | nil => simp [storeSet, storeGet, Ne.symm h]
  | cons p rest ih =>
    obtain ⟨pk, pv⟩ := p
    by_cases h1 : pk = k <;> by_cases h2 : pk = q <;>
      simp_all [storeSet, storeGet]

/-! ## Substring lemmas -/

theorem strContains_parts (pre sub post : String) :
    strContains (pre ++ sub ++ post) sub = true := by
  simp only [strContains, decide_eq_true_eq]
  exact ⟨pre.data, post.data, by simp [String.data_append]⟩

theorem strContains_of_eq (s pre sub post : String)
    (h : s = pre ++ sub ++ post) : strContains s sub = true :=
  h ▸ strContains_parts pre sub post

/-! ## Claim theorems -/

/-- Claim C8: `http_status` maps 200 to the literal `"200 OK"`, every
other integer code to the literal `"404 Not Found"`, and never returns
any other string. -/
theorem http_status_two_literals :
    http_status 200 = "200 OK" ∧
    (∀ code : Int, code ≠ 200 → http_status code = "404 Not Found") ∧
    (∀ code : Int,
      http_status code = "200 OK" ∨ http_status code = "404 Not Found") := by
  refine ⟨rfl, fun code h => by simp [http_status, h], fun code => ?_⟩
  by_cases h : code = 200 <;> simp [http_status, h]

/-- Witness for C8 at the concrete code 404. -/
theorem http_status_two_literals_witness :
    http_status 404 = "404 Not Found" :=
  http_status_two_literals.2.1 404 (by decide)

/-- Claim C2: `TextManager.create` is unique-on-title: with the title
already present it returns `False` and the store (hence the stored content
of every key) is untouched; with the title absent it returns `True`,
stores the content under the title and changes no other key, so a second
create with the same title fails and leaves the stored content intact. -/
theorem TextManager.create_unique_on_title
    (db : Store String) (title content : String) :
    (storeContains db title = true →
      TextManager.create db title content = (false, db)) ∧
    (storeContains db title = false →
      (TextManager.create db title content).1 = true ∧
      storeGet (TextManager.create db title content).2 title = some content ∧
      (∀ k, k ≠ title →
        storeGet (TextManager.create db title content).2 k = storeGet db k) ∧
      (∀ c2, TextManager.create (TextManager.create db title content).2 title c2 =
        (false, (TextManager.create db title content).2))) := by
  constructor
  · intro h
    simp [TextManager.create, h]
  · intro h
    refine ⟨by simp [TextManager.create, h], by simp [TextManager.create, h, storeGet_set_self],
      fun k hk => by simp [TextManager.create, h, storeGet_set_ne db title k content hk],
      fun c2 => by
        have e : (TextManager.create db title content).2 =
            storeSet db title content := by
          simp [TextManager.create, h]
        rw [e]
        simp [TextManager.create, storeContains, storeGet_set_self]⟩

/-- Witness for C2: a duplicate create fails and keeps the store, a fresh
create succeeds. -/
theorem TextManager.create_unique_on_title_witness :
    TextManager.create [("a", "b")] "a" "z" = (false, [("a", "b")]) ∧
    (TextManager.create [] "a" "b").1 = true :=
  ⟨(TextManager.create_unique_on_title [("a", "b")] "a" "z").1 (by decide),
   ((TextManager.create_unique_on_title [] "a" "b").2 (by decide)).1⟩

/-- Claim C3: `TextManager.get_by_title` returns `none` both for an
absent title and for an empty stored content; for a stored non-empty
content it returns the document carrying that title and content, in
particular right after a successful create of that title. -/
theorem TextManager.get_by_title_absent_or_empty (db : Store String) :
    (∀ t, storeGet db t = none →
      TextManager.get_by_title db (some t) = none) ∧
    (∀ t, storeGet db t = some "" →
      TextManager.get_by_title db (some t) = none) ∧
    (∀ t c, storeGet db t = some c → c ≠ "" →
      TextManager.get_by_title db (some t) = some ⟨t, c⟩) ∧
    (∀ t c, c ≠ "" → storeContains db t = false →
      TextManager.get_by_title (TextManager.create db t c).2 (some t) =
        some ⟨t, c⟩) :=
  ⟨fun t h => by simp [TextManager.get_by_title, h],
   fun t h => by simp [TextManager.get_by_title, h],
   fun t c h hne => by simp [TextManager.get_by_title, h, hne],
   fun t c hne h => by
     simp [TextManager.get_by_title, TextManager.create, h,
       storeGet_set_self, hne]⟩

/-- Witness for C3: empty content and absent title are both `none`; a
created non-empty content is found. -/
theorem TextManager.get_by_title_absent_or_empty_witness :
    TextManager.get_by_title [("a", "")] (some "a") = none ∧
    TextManager.get_by_title [("a", "")] (some "b") = none ∧
    TextManager.get_by_title
      (TextManager.create [("a", "")] "b" "hey").2 (some "b") =
      some ⟨"b", "hey"⟩ :=
  ⟨(TextManager.get_by_title_absent_or_empty [("a", "")]).2.1 "a" (by decide),
   (TextManager.get_by_title_absent_or_empty [("a", "")]).1 "b" (by decide),
   (TextManager.get_by_title_absent_or_empty [("a", "")]).2.2.2 "b" "hey"
     (by decide) (by decide)⟩

/-- Claim C5: `SessionManager.get_or_create` with a `None` or unknown id
returns a fresh session carrying the newly generated id and counter 0 and
persists it; with a known id it returns the stored session and leaves the
store unchanged. -/
theorem SessionManager.get_or_create_fresh_or_stored
    (sdb : Store SessionModel) (sid : Option String) (fresh : String) :
    ((∀ s, sid = some s → storeGet sdb s = none) →
      SessionManager.get_or_create sdb sid fresh =
        (⟨fresh, 0⟩, storeSet sdb fresh ⟨fresh, 0⟩)) ∧
    (∀ s sess, sid = some s → storeGet sdb s = some sess →
      SessionManager.get_or_create sdb sid fresh = (sess, sdb)) := by
  constructor
  · intro h
    cases sid with
    | none => simp [SessionManager.get_or_create, SessionModel.new]
    | some s =>
      simp [SessionManager.get_or_create, h s rfl, SessionModel.new]
  · rintro s sess rfl h
    simp [SessionManager.get_or_create, h]

/-- Witness for C5: a missing cookie and an unknown id both yield the
fresh session with counter 0; a known id yields the stored session. -/
theorem SessionManager.get_or_create_fresh_or_stored_witness :
    SessionManager.get_or_create [] none "u" =
      (⟨"u", 0⟩, [("u", ⟨"u", 0⟩)]) ∧
    SessionManager.get_or_create [("v", ⟨"v", 7⟩)] (some "w") "u" =
      (⟨"u", 0⟩, [("v", ⟨"v", 7⟩), ("u", ⟨"u", 0⟩)]) ∧
    SessionManager.get_or_create [("v", ⟨"v", 7⟩)] (some "v") "u" =
      (⟨"v", 7⟩, [("v", ⟨"v", 7⟩)]) :=
  ⟨(SessionManager.get_or_create_fresh_or_stored [] none "u").1
     (by intro s h; cases h),
   (SessionManager.get_or_create_fresh_or_stored [("v", ⟨"v", 7⟩)]
       (some "w") "u").1 (by intro s h; cases h; decide),
   (SessionManager.get_or_create_fresh_or_stored [("v", ⟨"v", 7⟩)]
       (some "v") "u").2 "v" ⟨"v", 7⟩ rfl (by decide)⟩

/-- Claim C4: `Router.route` is an exact-match lookup: every unregistered
path yields exactly `(404, "Nooo 404!")` with no state change, a
registered path invokes its handler with the last registration winning,
and the application's registered paths `/`, `/text` and `/text/add` all
answer with status 200. -/
theorem Router.route_default_and_registered :
    (∀ (r : Router) (p : String) (db : Store String) (req : Request),
      storeGet r p = none →
      Router.route r p db req = ((404, "Nooo 404!"), db, req.SESSION)) ∧
    (∀ (r : Router) (p : String) (h : Handler) (db : Store String)
      (req : Request),
      Router.route (Router.register r p h) p db req = h db req) ∧
    (∀ (r : Router) (p : String) (h h2 : Handler) (db : Store String)
      (req : Request),
      Router.route (Router.register (Router.register r p h) p h2) p db req =
        h2 db req) ∧
    (∀ (db : Store String) (req : Request),
      (Router.route router "/" db req).1.1 = 200) ∧
    (∀ (db : Store String) (req : Request),
      (Router.route router "/text" db req).1.1 = 200) ∧
    (∀ (db : Store String) (req : Request),
      (Router.route router "/text/add" db req).1.1 = 200) := by
  refine ⟨fun r p db req h => by simp [Router.route, h, Router.default_response],
    fun r p h db req => by simp [Router.route, Router.register, storeGet_set_self],
    fun r p h h2 db req => by simp [Router.route, Router.register, storeGet_set_self],
    fun db req => rfl, fun db req => rfl, fun db req => rfl⟩

/-- Witness for C4: an unregistered path gets the default 404 response
and `/text` answers 200. -/
theorem Router.route_default_and_registered_witness :
    Router.route router "/nope" [] { params := [], SESSION := ⟨"s", 0⟩ } =
      ((404, "Nooo 404!"), [], ⟨"s", 0⟩) ∧
    (Router.route router "/text" []
      { params := [], SESSION := ⟨"s", 0⟩ }).1.1 = 200 :=
  ⟨Router.route_default_and_registered.1 router "/nope" []
     { params := [], SESSION := ⟨"s", 0⟩ } rfl,
   Router.route_default_and_registered.2.2.2.2.1 []
     { params := [], SESSION := ⟨"s", 0⟩ }⟩

/-- Claim C6: `TextController.add` validates before creating: a missing
or empty title or content yields the error `"Need fill the form fields."`
and leaves the document store untouched (no create is attempted); with
both non-empty, `TextManager.create` runs -- a duplicate title yields the
error `"Title already exist."` with the store untouched, and a fresh
title stores the content with no error. -/
theorem TextController.add_validates_before_create
    (db : Store String) (req : Request) :
    (pyFalsy (take_one_or_None req.params "title") = true ∨
     pyFalsy (take_one_or_None req.params "content") = true →
      TextController.addOutcome db req = (some "Need fill the form fields.", db) ∧
      (TextController.add db req).2.1 = db) ∧
    (∀ t c, take_one_or_None req.params "title" = some t → t ≠ "" →
      take_one_or_None req.params "content" = some c → c ≠ "" →
      (storeContains db t = true →
        TextController.addOutcome db req = (some "Title already exist.", db)) ∧
      (storeContains db t = false →
        TextController.addOutcome db req = (none, storeSet db t c))) := by
  constructor
  · intro h
    have hb : (pyFalsy (take_one_or_None req.params "title") ||
        pyFalsy (take_one_or_None req.params "content")) = true := by
      rcases h with h | h <;> simp [h]
    constructor
    · simp [TextController.addOutcome, hb]
    · simp [TextController.add, TextController.addOutcome, hb]
  · intro t c ht htne hc hcne
    have hb : (pyFalsy (take_one_or_None req.params "title") ||
        pyFalsy (take_one_or_None req.params "content")) = false := by
      simp [ht, hc, pyFalsy, htne, hcne]
    constructor
    · intro hdup
      simp [TextController.addOutcome, hb, ht, hc, TextManager.create, hdup, pyFalsy, htne, hcne]
    · intro habs
      simp [TextController.addOutcome, hb, ht, hc, TextManager.create, habs, pyFalsy, htne, hcne]

/-- Witness for C6: a request with only a title leaves the store alone
with the missing-fields error; a duplicate-title request errors with the
store untouched; a fresh-title request stores the content. -/
theorem TextController.add_validates_before_create_witness :
    TextController.addOutcome [("a", "b")]
      { params := [("title", ["a"])], SESSION := ⟨"s", 0⟩ } =
      (some "Need fill the form fields.", [("a", "b")]) ∧
    TextController.addOutcome [("a", "b")]
      { params := [("title", ["a"]), ("content", ["x"])], SESSION := ⟨"s", 0⟩ } =
      (some "Title already exist.", [("a", "b")]) ∧
    TextController.addOutcome [("a", "b")]
      { params := [("title", ["t"]), ("content", ["x"])], SESSION := ⟨"s", 0⟩ } =
      (none, [("a", "b"), ("t", "x")]) :=
  ⟨((TextController.add_validates_before_create [("a", "b")]
      { params := [("title", ["a"])], SESSION := ⟨"s", 0⟩ }).1
      (Or.inr (by decide))).1,
   ((TextController.add_validates_before_create [("a", "b")]
      { params := [("title", ["a"]), ("content", ["x"])], SESSION := ⟨"s", 0⟩ }).2
      "a" "x" (by decide) (by decide) (by decide) (by decide)).1 (by decide),
   ((TextController.add_validates_before_create [("a", "b")]
      { params := [("title", ["t"]), ("content", ["x"])], SESSION := ⟨"s", 0⟩ }).2
      "t" "x" (by decide) (by decide) (by decide) (by decide)).2 (by decide)⟩

/-- Claim C10 (implicit): the `/text/add` response is a constant: for
every document store and request, `TextController.add` answers 200 with
exactly the redirect-stub body, which contains neither of the two error
strings the handler computes nor anything from the submitted fields. -/
theorem TextController.add_response_constant :
    (∀ (db : Store String) (req : Request),
      (TextController.add db req).1 =
        (200, "<meta http-equiv=\"refresh\" content=\"0; url=/text\" />")) ∧
    strContains "<meta http-equiv=\"refresh\" content=\"0; url=/text\" />"
      "Need fill the form fields." = false ∧
    strContains "<meta http-equiv=\"refresh\" content=\"0; url=/text\" />"
      "Title already exist." = false :=
  ⟨fun db req => rfl, by decide, by decide⟩

/-! ## Render containment lemmas -/

theorem TextIndexView.render_contains_content (ctx : IndexContext)
    (cur : TextModel) (h : ctx.current = some cur) :
    strContains (TextIndexView.render ctx).1 cur.content = true := by
  apply strContains_of_eq _
    (TextIndexView.templateA ++
      (if ctx.error = "" then ctx.error
        else TextIndexView.errorBlock ctx.error) ++
      TextIndexView.templateB ++
      ("\n            <h1>" ++ cur.title ++ "</h1>\n            "))
    cur.content
    ("\n            " ++ TextIndexView.templateC ++
      String.intercalate "\n"
        (ctx.all.map fun text => "<li>" ++ text.title ++ "</li>") ++
      TextIndexView.templateD)
  simp [TextIndexView.render, h, TextIndexView.contentBlock,
    String.append_assoc]

theorem TextIndexView.render_contains_error (ctx : IndexContext)
    (h : ctx.error ≠ "") :
    strContains (TextIndexView.render ctx).1 ctx.error = true := by
  cases hc : ctx.current with
  | some cur =>
    apply strContains_of_eq _
      (TextIndexView.templateA ++ "\n            <h1 style=\"color:red;\">")
      ctx.error
      ("</h1>\n            " ++ TextIndexView.templateB ++
        TextIndexView.contentBlock cur ++ TextIndexView.templateC ++
        String.intercalate "\n"
          (ctx.all.map fun text => "<li>" ++ text.title ++ "</li>") ++
        TextIndexView.templateD)
    simp [TextIndexView.render, h, hc, TextIndexView.errorBlock,
      String.append_assoc]
  | none =>
    apply strContains_of_eq _
      (TextIndexView.templateA ++ "\n            <h1 style=\"color:red;\">")
      ctx.error
      ("</h1>\n            " ++ TextIndexView.templateB ++
        "What do you want read?" ++ TextIndexView.templateC ++
        String.intercalate "\n"
          (ctx.all.map fun text => "<li>" ++ text.title ++ "</li>") ++
        TextIndexView.templateD)
    simp [TextIndexView.render, h, hc, TextIndexView.errorBlock,
      String.append_assoc]

theorem TextIndexView.render_contains_notfound (ctx : IndexContext)
    (h : ctx.current = none) :
    strContains (TextIndexView.render ctx).1 "What do you want read?" = true := by
  apply strContains_of_eq _
    (TextIndexView.templateA ++
      (if ctx.error = "" then ctx.error
        else TextIndexView.errorBlock ctx.error) ++
      TextIndexView.templateB)
    "What do you want read?"
    (TextIndexView.templateC ++
      String.intercalate "\n"
        (ctx.all.map fun text => "<li>" ++ text.title ++ "</li>") ++
      TextIndexView.templateD)
  simp [TextIndexView.render, h, String.append_assoc]

/-- Claim C9: the session counter never decreases: `TextController.index`
leaves it or increments it by exactly 1, and increments exactly when the
gate admits a found document; `TextController.add` returns the session
untouched; `SessionManager.get_or_create` returns a stored session
unchanged and a fresh one at 0; `SessionManager.update` stores the given
session as it is. -/
theorem sessionCounterMonotone :
    (∀ (db : Store String) (req : Request),
      req.SESSION.amount_of_viewed_pages ≤
        (TextController.index db req).2.2.amount_of_viewed_pages ∧
      ((TextController.index db req).2.2.amount_of_viewed_pages =
          req.SESSION.amount_of_viewed_pages + 1 ↔
        req.SESSION.amount_of_viewed_pages ≤ 3 ∧
          (TextManager.get_by_title db
            (take_one_or_None req.params "title")).isSome = true) ∧
      ((TextController.index db req).2.2.amount_of_viewed_pages =
          req.SESSION.amount_of_viewed_pages ∨
        (TextController.index db req).2.2.amount_of_viewed_pages =
          req.SESSION.amount_of_viewed_pages + 1)) ∧
    (∀ (db : Store String) (req : Request),
      (TextController.add db req).2.2 = req.SESSION) ∧
    (∀ (sdb : Store SessionModel) (s : String) (sess : SessionModel)
      (fresh : String), storeGet sdb s = some sess →
      (SessionManager.get_or_create sdb (some s) fresh).1 = sess) ∧
    (∀ (sdb : Store SessionModel) (fresh : String),
      (SessionManager.get_or_create sdb none fresh).1.amount_of_viewed_pages
        = 0) ∧
    (∀ (sdb : Store SessionModel) (sess : SessionModel),
      storeGet (SessionManager.update sdb sess) sess.session_id =
        some sess) := by
  refine ⟨fun db req => ?_, fun db req => rfl,
    fun sdb s sess fresh h => by simp [SessionManager.get_or_create, h],
    fun sdb fresh => by simp [SessionManager.get_or_create, SessionModel.new],
    fun sdb sess => storeGet_set_self sdb sess.session_id sess⟩
  by_cases hn : req.SESSION.amount_of_viewed_pages ≤ 3
  · by_cases hc : (TextManager.get_by_title db
        (take_one_or_None req.params "title")).isSome = true
    · have e : (TextController.index db req).2.2.amount_of_viewed_pages =
          req.SESSION.amount_of_viewed_pages + 1 := by
        simp [TextController.index, hn, hc]
      rw [e]
      exact ⟨Nat.le_succ _, by simp [hn, hc], Or.inr rfl⟩
    · have e : (TextController.index db req).2.2.amount_of_viewed_pages =
          req.SESSION.amount_of_viewed_pages := by
        simp [TextController.index, hn, hc]
      rw [e]
      refine ⟨le_refl _, ?_, Or.inl rfl⟩
      have hc2 : (TextManager.get_by_title db
          (take_one_or_None req.params "title")).isSome = false := by
        simpa using hc
      simp [hc2]
  · have e : (TextController.index db req).2.2.amount_of_viewed_pages =
        req.SESSION.amount_of_viewed_pages := by
      simp [TextController.index, hn]
    rw [e]
    refine ⟨le_refl _, ?_, Or.inl rfl⟩
    simp [hn]

/-- Witness for C9: a stored session comes back unchanged from
`get_or_create`, and an admitted view does not decrease the counter. -/
theorem sessionCounterMonotone_witness :
    (SessionManager.get_or_create [("v", ⟨"v", 5⟩)] (some "v") "u").1 =
      ⟨"v", 5⟩ ∧
    (3 : Nat) ≤ (TextController.index [("a", "b")]
      { params := [("title", ["a"])],
        SESSION := ⟨"s", 3⟩ }).2.2.amount_of_viewed_pages :=
  ⟨sessionCounterMonotone.2.2.1 [("v", ⟨"v", 5⟩)] "v" ⟨"v", 5⟩ "u" (by decide),
   (sessionCounterMonotone.1 [("a", "b")]
     { params := [("title", ["a"])], SESSION := ⟨"s", 3⟩ }).1⟩

/-- Counterexample to C7 as stated: `TextIndexView.render` mutates the
caller's context -- already on the empty context it adds the `titles` and
`content` keys, so the context does not hold the same key-value pairs
after the render. -/
theorem TextIndexView.render_mutates_context :
    (TextIndexView.render
      { all := [], current := none, error := "",
        titles := none, content := none }).2 ≠
    { all := [], current := none, error := "",
      titles := none, content := none } := by
  intro h
  have := congrArg IndexContext.titles h
  simp [TextIndexView.render] at this

/-- Claim C7 (amended): both views compute their HTML output as pure
functions of the context, and `RedirectView.render` ignores its context
entirely; but `TextIndexView.render` mutates the caller's context -- it
sets the `titles` and `content` keys and rewraps a non-empty `error` --
while preserving the `all` and `current` entries and an empty `error`. -/
theorem views_render_effects :
    (∀ ctx : AddContext, RedirectView.render ctx =
      "<meta http-equiv=\"refresh\" content=\"0; url=/text\" />") ∧
    (∀ ctx : IndexContext,
      (TextIndexView.render ctx).2.all = ctx.all ∧
      (TextIndexView.render ctx).2.current = ctx.current ∧
      (∃ ts, (TextIndexView.render ctx).2.titles = some ts) ∧
      (∃ cs, (TextIndexView.render ctx).2.content = some cs) ∧
      (ctx.error = "" → (TextIndexView.render ctx).2.error = ctx.error) ∧
      (ctx.error ≠ "" → (TextIndexView.render ctx).2.error =
        TextIndexView.errorBlock ctx.error)) := by
  refine ⟨fun ctx => rfl, fun ctx => ⟨rfl, rfl, ⟨_, rfl⟩, ⟨_, rfl⟩, ?_, ?_⟩⟩
  · intro h
    simp [TextIndexView.render, h]
  · intro h
    simp [TextIndexView.render, h]

/-- Witness for C7 (amended): an empty error is preserved and a
non-empty error comes back as the wrapped error block. -/
theorem views_render_effects_witness :
    (TextIndexView.render
      { all := [⟨"a", "b"⟩], current := some ⟨"a", "b"⟩, error := "",
        titles := none, content := none }).2.error = "" ∧
    (TextIndexView.render
      { all := [], current := none, error := "boom",
        titles := none, content := none }).2.error =
      TextIndexView.errorBlock "boom" :=
  ⟨((views_render_effects.2
      { all := [⟨"a", "b"⟩], current := some ⟨"a", "b"⟩, error := "",
        titles := none, content := none }).2.2.2.2.1) rfl,
   ((views_render_effects.2
      { all := [], current := none, error := "boom",
        titles := none, content := none }).2.2.2.2.2) (by simp)⟩

/-- Claim C1: the view-count gate of `TextController.index`: with the
session counter `n ≤ 3` and the requested title stored with non-empty
content, the handler answers 200 with a body containing that content and
bumps the counter to `n + 1` (so the 4th view, at counter 3, is still
admitted -- the gate reads the counter before the increment); with
`n > 3` it answers 200 with a body carrying the rate-limit error and the
not-found rendering, regardless of the store, and the session is
unchanged. -/
theorem TextController.index_view_gate (db : Store String) (req : Request) :
    (∀ t c, req.SESSION.amount_of_viewed_pages ≤ 3 →
      take_one_or_None req.params "title" = some t →
      storeGet db t = some c → c ≠ "" →
      (TextController.index db req).1.1 = 200 ∧
      strContains (TextController.index db req).1.2 c = true ∧
      (TextController.index db req).2.2.amount_of_viewed_pages =
        req.SESSION.amount_of_viewed_pages + 1) ∧
    (3 < req.SESSION.amount_of_viewed_pages →
      (TextController.index db req).1.1 = 200 ∧
      strContains (TextController.index db req).1.2
        "Too many articles reviewed." = true ∧
      strContains (TextController.index db req).1.2
        "What do you want read?" = true ∧
      (TextController.index db req).2.2 = req.SESSION) := by
  constructor
  · intro t c hn ht hc hcne
    have hbt : TextManager.get_by_title db
        (take_one_or_None req.params "title") = some ⟨t, c⟩ := by
      simp [ht, TextManager.get_by_title, hc, hcne]
    have hgt : ¬ 3 < req.SESSION.amount_of_viewed_pages := not_lt.mpr hn
    have hb : (TextController.index db req).1.2 =
        (TextIndexView.render
          { all := TextManager.get_all db, current := some ⟨t, c⟩,
            error := "", titles := none, content := none }).1 := by
      simp [TextController.index, hn, hbt, hgt]
    refine ⟨rfl, ?_, by simp [TextController.index, hn, hbt]⟩
    rw [hb]
    exact TextIndexView.render_contains_content _ ⟨t, c⟩ rfl
  · intro hgt
    have hn : ¬ req.SESSION.amount_of_viewed_pages ≤ 3 := not_le.mpr hgt
    have hb : (TextController.index db req).1.2 =
        (TextIndexView.render
          { all := TextManager.get_all db, current := none,
            error := "Too many articles reviewed.",
            titles := none, content := none }).1 := by
      simp [TextController.index, hn, hgt]
    refine ⟨rfl, ?_, ?_, by simp [TextController.index, hn]⟩
    · rw [hb]
      exact TextIndexView.render_contains_error
        { all := TextManager.get_all db, current := none,
          error := "Too many articles reviewed.",
          titles := none, content := none } (by simp)
    · rw [hb]
      exact TextIndexView.render_contains_notfound _ rfl

/-- Witness for C1: at counter 3 the stored document "a" (content "b")
is still served and the counter reaches 4; at counter 4 the same request
is refused with the rate-limit error and the session is unchanged. -/
theorem TextController.index_view_gate_witness :
    (TextController.index [("a", "b")]
      { params := [("title", ["a"])], SESSION := ⟨"s", 3⟩ }).1.1 = 200 ∧
    strContains (TextController.index [("a", "b")]
      { params := [("title", ["a"])], SESSION := ⟨"s", 3⟩ }).1.2 "b" = true ∧
    (TextController.index [("a", "b")]
      { params := [("title", ["a"])],
        SESSION := ⟨"s", 3⟩ }).2.2.amount_of_viewed_pages = 4 ∧
    strContains (TextController.index [("a", "b")]
      { params := [("title", ["a"])], SESSION := ⟨"s", 4⟩ }).1.2
      "Too many articles reviewed." = true ∧
    (TextController.index [("a", "b")]
      { params := [("title", ["a"])], SESSION := ⟨"s", 4⟩ }).2.2 =
      ⟨"s", 4⟩ := by
  obtain ⟨h1, h2, h3⟩ :=
    (TextController.index_view_gate [("a", "b")]
      { params := [("title", ["a"])], SESSION := ⟨"s", 3⟩ }).1 "a" "b"
      (by decide) (by decide) (by decide) (by decide)
  obtain ⟨g1, g2, g3, g4⟩ :=
    (TextController.index_view_gate [("a", "b")]
      { params := [("title", ["a"])], SESSION := ⟨"s", 4⟩ }).2 (by decide)
  exact ⟨h1, h2, h3, g2, g4⟩
